import Mathlib

/-!
Verification development for the Finder repository (src/Finder.py).

The core under study is the boolean phrase-formula engine of the search
tool: operator normalization (`Finder._normalize_operators`), formula
validation (`Finder._comprehensive_formula_validation` and its helper
checks), formula evaluation (`SearchWorker._evaluate_formula`), per-file
scanning with first-occurrence tracking (`SearchWorker._search_file`),
and the cancellable search loop (`SearchWorker.run_search`).

Strings are modelled as `String` / `List Char`.  Python's `str.replace`
is modelled by `replaceAll` (leftmost, non-overlapping, replacement text
not rescanned), `str.strip` by `pyStrip`, the regex token scanners by
`scanTokens` (ordered-alternative, leftmost scan, unmatched characters
skipped), and the `eval` call on the substituted boolean expression by
`pyEval`, a tokenizer plus recursive-descent parser-evaluator for the
Python boolean-expression fragment the substitution can produce
(`True`/`False`, identifiers, `and`/`or`/`not`, `==`/`!=`, parentheses,
spaces) with Python's short-circuit semantics; any other character, any
syntax error, and any evaluation of an undefined name yields `none`,
modelling the exception caught by the bare `except` in the source.
Recursive scanners take an explicit fuel argument (always instantiated
with the input length, which suffices) so that all definitions reduce in
the kernel.
-/

/-- Python whitespace characters recognised by `str.strip`. -/
def pyWs (c : Char) : Bool :=
  c = ' ' || c = '\t' || c = '\n' || c = '\r' || c = Char.ofNat 11 || c = Char.ofNat 12

/-- Python `str.strip()` on a character list. -/
def pyStrip (s : List Char) : List Char :=
  ((s.dropWhile pyWs).reverse.dropWhile pyWs).reverse

/-- Python `str.strip()` on a `String`. -/
def pyStripS (s : String) : String :=
  String.mk (pyStrip s.data)

/-- Boolean prefix test on character lists. -/
def isPre : List Char → List Char → Bool
  | [], _ => true
  | _ :: _, [] => false
  | a :: as, b :: bs => a == b && isPre as bs

/-- Boolean substring test on character lists (Python's `x in y` on strings
for a non-empty pattern). -/
def hasSub (pat : List Char) : List Char → Bool
  | [] => isPre pat []
  | c :: cs => isPre pat (c :: cs) || hasSub pat cs

/-- Fuel-indexed worker for `replaceAll`.  With fuel at least the length of
the input it scans left to right; where the (non-empty) pattern matches it
emits the replacement and resumes after the matched text, exactly like
Python's `str.replace` (the replacement text is not rescanned). -/
def repF (pat rep : List Char) : Nat → List Char → List Char
  | 0, s => s
  | _ + 1, [] => []
  | fuel + 1, c :: cs =>
    if pat ≠ [] ∧ isPre pat (c :: cs) = true then
      rep ++ repF pat rep fuel (cs.drop (pat.length - 1))
    else
      c :: repF pat rep fuel cs

/-- Python `s.replace(pat, rep)` for a non-empty pattern. -/
def replaceAll (pat rep s : List Char) : List Char :=
  repF pat rep s.length s

/-- `Finder._normalize_operators`: the operator map is applied with
`str.replace` in Python dict insertion order, namely
`'&'`, `'&&'`, `'|'`, `'||'`, `'!'`, `'~'`, `'^'`. -/
def normalizeOperators (s : List Char) : List Char :=
  replaceAll ['^'] " XOR ".data
    (replaceAll ['~'] " NOT ".data
      (replaceAll ['!'] " NOT ".data
        (replaceAll ['|', '|'] " OR ".data
          (replaceAll ['|'] " OR ".data
            (replaceAll ['&', '&'] " AND ".data
              (replaceAll ['&'] " AND ".data s))))))

/-- `Finder._normalize_operators` at the `String` interface. -/
def normalizeStr (s : String) : String :=
  String.mk (normalizeOperators s.data)

theorem mem_repF {pat rep : List Char} {x : Char} :
    ∀ (fuel : Nat) (s : List Char), x ∈ repF pat rep fuel s → x ∈ rep ∨ x ∈ s := by
  intro fuel
  induction fuel with
  | zero => intro s hx; exact Or.inr hx
  | succ n ih =>
    intro s hx
    match s with
    | [] => simp [repF] at hx
    | c :: cs =>
      rw [repF] at hx
      by_cases h : pat ≠ [] ∧ isPre pat (c :: cs) = true
      · rw [if_pos h] at hx
        rcases List.mem_append.mp hx with h1 | h1
        · exact Or.inl h1
        · rcases ih _ h1 with h2 | h2
          · exact Or.inl h2
          · exact Or.inr (List.mem_cons_of_mem c (List.drop_subset _ _ h2))
      · rw [if_neg h] at hx
        rcases List.mem_cons.mp hx with h1 | h1
        · exact Or.inr (h1 ▸ List.mem_cons_self c cs)
        · rcases ih _ h1 with h2 | h2
          · exact Or.inl h2
          · exact Or.inr (List.mem_cons_of_mem c h2)

theorem mem_replaceAll {pat rep s : List Char} {x : Char}
    (hx : x ∈ replaceAll pat rep s) : x ∈ rep ∨ x ∈ s :=
  mem_repF s.length s hx

theorem repF_head_not_mem {h : Char} {t rep : List Char} :
    ∀ (fuel : Nat) (s : List Char), h ∉ s → repF (h :: t) rep fuel s = s := by
  intro fuel
  induction fuel with
  | zero => intro s _; rfl
  | succ n ih =>
    intro s hs
    match s with
    | [] => rfl
    | c :: cs =>
      rw [repF]
      have hne : ¬ (h :: t ≠ [] ∧ isPre (h :: t) (c :: cs) = true) := by
        rintro ⟨-, hp⟩
        rw [isPre] at hp
        have : h = c := by
          rcases Bool.and_eq_true_iff.mp hp with ⟨h1, -⟩
          exact eq_of_beq h1
        exact hs (this ▸ List.mem_cons_self c cs)
      rw [if_neg hne, ih cs (fun hmem => hs (List.mem_cons_of_mem c hmem))]

theorem replaceAll_head_not_mem {h : Char} {t rep s : List Char}
    (hs : h ∉ s) : replaceAll (h :: t) rep s = s :=
  repF_head_not_mem s.length s hs

theorem repF_single_not_mem {c : Char} {rep : List Char} (hrep : c ∉ rep) :
    ∀ (fuel : Nat) (s : List Char), s.length ≤ fuel → c ∉ repF [c] rep fuel s := by
  intro fuel
  induction fuel with
  | zero =>
    intro s hlen
    have : s = [] := List.eq_nil_of_length_eq_zero (Nat.le_zero.mp hlen)
    subst this
    simp [repF]
  | succ n ih =>
    intro s hlen
    match s with
    | [] => simp [repF]
    | d :: ds =>
      rw [repF]
      by_cases h : [c] ≠ ([] : List Char) ∧ isPre [c] (d :: ds) = true
      · rw [if_pos h]
        intro hmem
        rcases List.mem_append.mp hmem with h1 | h1
        · exact hrep h1
        · have hlen' : ds.length ≤ n := Nat.le_of_succ_le_succ (by simpa using hlen)
          exact ih ds hlen' (by simpa using h1)
      · rw [if_neg h]
        intro hmem
        have hcd : c ≠ d := by
          intro heq
          exact h ⟨by simp, by simp [isPre, heq]⟩
        rcases List.mem_cons.mp hmem with h1 | h1
        · exact hcd h1
        · have hlen' : ds.length ≤ n := Nat.le_of_succ_le_succ (by simpa using hlen)
          exact ih ds hlen' h1

theorem replaceAll_single_not_mem {c : Char} {rep s : List Char}
    (hrep : c ∉ rep) : c ∉ replaceAll [c] rep s :=
  repF_single_not_mem hrep s.length s (Nat.le_refl _)

/-- After one pass of `normalizeOperators` none of the source's symbolic operator
characters remain: each single-character replacement removes all of its
occurrences and no replacement text reintroduces one. -/
theorem normalizeOperators_no_symbols (s : List Char) :
    '&' ∉ normalizeOperators s ∧ '|' ∉ normalizeOperators s ∧ '!' ∉ normalizeOperators s ∧
      '~' ∉ normalizeOperators s ∧ '^' ∉ normalizeOperators s := by
  set s1 := replaceAll ['&'] " AND ".data s with hs1
  have h1 : '&' ∉ s1 := replaceAll_single_not_mem (by decide)
  have hs2 : replaceAll ['&', '&'] " AND ".data s1 = s1 :=
    replaceAll_head_not_mem h1
  set s3 := replaceAll ['|'] " OR ".data s1 with hs3
  have h3or : '|' ∉ s3 := replaceAll_single_not_mem (by decide)
  have h3amp : '&' ∉ s3 := by
    intro hmem
    rcases mem_replaceAll hmem with h | h
    · revert h; decide
    · exact h1 h
  have hs4 : replaceAll ['|', '|'] " OR ".data s3 = s3 :=
    replaceAll_head_not_mem h3or
  set s5 := replaceAll ['!'] " NOT ".data s3 with hs5
  have h5bang : '!' ∉ s5 := replaceAll_single_not_mem (by decide)
  have h5amp : '&' ∉ s5 := by
    intro hmem
    rcases mem_replaceAll hmem with h | h
    · revert h; decide
    · exact h3amp h
  have h5or : '|' ∉ s5 := by
    intro hmem
    rcases mem_replaceAll hmem with h | h
    · revert h; decide
    · exact h3or h
  set s6 := replaceAll ['~'] " NOT ".data s5 with hs6
  have h6til : '~' ∉ s6 := replaceAll_single_not_mem (by decide)
  have h6amp : '&' ∉ s6 := by
    intro hmem
    rcases mem_replaceAll hmem with h | h
    · revert h; decide
    · exact h5amp h
  have h6or : '|' ∉ s6 := by
    intro hmem
    rcases mem_replaceAll hmem with h | h
    · revert h; decide
    · exact h5or h
  have h6bang : '!' ∉ s6 := by
    intro hmem
    rcases mem_replaceAll hmem with h | h
    · revert h; decide
    · exact h5bang h
  set s7 := replaceAll ['^'] " XOR ".data s6 with hs7
  have h7car : '^' ∉ s7 := replaceAll_single_not_mem (by decide)
  have h7amp : '&' ∉ s7 := by
    intro hmem
    rcases mem_replaceAll hmem with h | h
    · revert h; decide
    · exact h6amp h
  have h7or : '|' ∉ s7 := by
    intro hmem
    rcases mem_replaceAll hmem with h | h
    · revert h; decide
    · exact h6or h
  have h7bang : '!' ∉ s7 := by
    intro hmem
    rcases mem_replaceAll hmem with h | h
    · revert h; decide
    · exact h6bang h
  have h7til : '~' ∉ s7 := by
    intro hmem
    rcases mem_replaceAll hmem with h | h
    · revert h; decide
    · exact h6til h
  have hnorm : normalizeOperators s = s7 := by
    rw [normalizeOperators, ← hs1, hs2, ← hs3, hs4, ← hs5, ← hs6, ← hs7]
  rw [hnorm]
  exact ⟨h7amp, h7or, h7bang, h7til, h7car⟩

/-- C9: `Normalize` is idempotent.  After one pass no symbolic operator
character remains, so every replacement step of the second pass is the
identity. -/
theorem c9_normalize_idempotent (f : String) :
    normalizeStr (normalizeStr f) = normalizeStr f := by
  obtain ⟨hamp, hor, hbang, htil, hcar⟩ := normalizeOperators_no_symbols f.data
  have hlist : normalizeOperators (normalizeOperators f.data) = normalizeOperators f.data := by
    rw [normalizeOperators]
    rw [replaceAll_head_not_mem hamp, replaceAll_head_not_mem hamp,
      replaceAll_head_not_mem hor, replaceAll_head_not_mem hor,
      replaceAll_head_not_mem hbang, replaceAll_head_not_mem htil,
      replaceAll_head_not_mem hcar]
  show String.mk (normalizeOperators (String.mk (normalizeOperators f.data)).data) = _
  simpa using congrArg String.mk hlist

/-- C3: the failing input.  Because `'&'` is replaced before `'&&'` (dict
insertion order), `"A && B"` normalizes to two consecutive `AND`s, not
one; the `'&&'` (and `'||'`) entries of the operator map are unreachable. -/
theorem c3_double_ampersand_normalization :
    normalizeStr "A && B" = "A  AND  AND  B" ∧
      normalizeStr "A||B" = "A OR  OR B" ∧
      normalizeStr "A && B" ≠ "A  AND  B" := by
  refine ⟨by decide, by decide, by decide⟩

/-- One search phrase: `text` is the literal substring, `case_sensitive`
the per-phrase match-case flag (`_prepare_search_parameters`). -/
structure Phrase where
  text : String
  case_sensitive : Bool
  deriving DecidableEq

/-- The phrase dictionary passed to `_evaluate_formula`, keyed by letter. -/
abbrev PhraseMap := List (Char × Phrase)

/-- Lowercasing used by the case-insensitive branch (`str.lower`). -/
def lowerChars (s : List Char) : List Char := s.map Char.toLower

/-- Uppercasing applied to the normalized formula (`str.upper`). -/
def upperChars (s : List Char) : List Char := s.map Char.toUpper

/-- The presence flag of one letter (`_evaluate_formula`, phrase loop and
`phrase_values.get(letter, False)`): false when the letter is absent from
the dictionary or its text strips to empty, otherwise a substring test in
the configured case. -/
def flag (phrases : PhraseMap) (content : String) (c : Char) : Bool :=
  match List.lookup c phrases with
  | none => false
  | some ph =>
    if pyStrip ph.text.data = [] then false
    else if ph.case_sensitive then hasSub ph.text.data content.data
    else hasSub (lowerChars ph.text.data) (lowerChars content.data)

/-- `str(True)` / `str(False)`. -/
def boolStr (b : Bool) : List Char := if b then "True".data else "False".data

/-- The letter-substitution loop of `_evaluate_formula`: for each letter
`A`..`F` in order, every occurrence in the formula is replaced by the
string form of its presence flag. -/
def substLetters (v : Char → Bool) (s : List Char) : List Char :=
  replaceAll ['F'] (boolStr (v 'F'))
    (replaceAll ['E'] (boolStr (v 'E'))
      (replaceAll ['D'] (boolStr (v 'D'))
        (replaceAll ['C'] (boolStr (v 'C'))
          (replaceAll ['B'] (boolStr (v 'B'))
            (replaceAll ['A'] (boolStr (v 'A')) s)))))

/-- The operator-substitution sequence of `_evaluate_formula`: `AND`, `OR`,
`NOT`, `NOR`, `XOR`, `XNOR` replaced in that order.  The final
`re.sub(r'not \(([^)]+)\)', r'not (\1)', ...)` in the source replaces each
match by itself and is omitted as the identity. -/
def opSubst (s : List Char) : List Char :=
  replaceAll "XNOR".data " == ".data
    (replaceAll "XOR".data " != ".data
      (replaceAll "NOR".data " not (".data
        (replaceAll "NOT".data " not ".data
          (replaceAll "OR".data " or ".data
            (replaceAll "AND".data " and ".data s)))))

/-- Tokens of the Python boolean-expression fragment reaching `eval`. -/
inductive PTok where
  | tru
  | fls
  | andK
  | orK
  | notK
  | eq
  | ne
  | lp
  | rp
  | idn

/-- Classify an identifier word. -/
def classify (w : List Char) : PTok :=
  if w = "True".data then .tru
  else if w = "False".data then .fls
  else if w = "and".data then .andK
  else if w = "or".data then .orK
  else if w = "not".data then .notK
  else .idn

/-- Fuel-indexed tokenizer for the substituted expression; `none` models a
lexical `SyntaxError`.  Any character outside the fragment fails. -/
def tokF : Nat → List Char → Option (List PTok)
  | 0, [] => some []
  | 0, _ :: _ => none
  | _ + 1, [] => some []
  | fuel + 1, c :: cs =>
    if c = ' ' then tokF fuel cs
    else if c = '(' then (tokF fuel cs).map (PTok.lp :: ·)
    else if c = ')' then (tokF fuel cs).map (PTok.rp :: ·)
    else if c = '=' then
      match cs with
      | '=' :: cs2 => (tokF fuel cs2).map (PTok.eq :: ·)
      | _ => none
    else if c = '!' then
      match cs with
      | '=' :: cs2 => (tokF fuel cs2).map (PTok.ne :: ·)
      | _ => none
    else if c.isAlpha then
      (tokF fuel (cs.dropWhile Char.isAlpha)).map
        (classify (c :: cs.takeWhile Char.isAlpha) :: ·)
    else none

/-- State of a chained Python comparison: errored, already false (the
remaining operands are no longer evaluated), or all true so far with the
previous operand's value. -/
inductive CmpSt where
  | err
  | doneF
  | pend (b : Bool)

/-- Start a comparison chain from the first operand's value. -/
def cmpInit : Option Bool → CmpSt
  | none => .err
  | some b => .pend b

/-- Extend a comparison chain by one `==`/`!=` operand. -/
def cmpStep (st : CmpSt) (isEq : Bool) (v : Option Bool) : CmpSt :=
  match st with
  | .err => .err
  | .doneF => .doneF
  | .pend a =>
    match v with
    | none => .err
    | some b => if (if isEq then a == b else a != b) then .pend b else .doneF

/-- Final value of a comparison chain. -/
def cmpFinish : CmpSt → Option Bool
  | .err => none
  | .doneF => some false
  | .pend _ => some true

/-- Python `or` on evaluated-or-errored operands (short-circuit: a true
left operand hides an error on the right). -/
def orV : Option Bool → Option Bool → Option Bool
  | none, _ => none
  | some true, _ => some true
  | some false, v2 => v2

/-- Python `and` on evaluated-or-errored operands. -/
def andV : Option Bool → Option Bool → Option Bool
  | none, _ => none
  | some false, _ => some false
  | some true, v2 => v2

/-- Parser mode: the grammar level being parsed
(`or_test`, `and_test`, `not_test`, `comparison`, atom). -/
inductive PMode where
  | orM
  | andM
  | notM
  | cmpStartM
  | cmpRestM (st : CmpSt)
  | atomM

/-- Fuel-indexed recursive-descent parser-evaluator for the Python
fragment, with Python's grammar (`or` below `and` below `not` below
comparison) and evaluation semantics: identifiers parse but evaluate to
`none` (`NameError`), `and`/`or` short-circuit, comparison chains stop
evaluating after a false link.  Syntax errors are `none` results. -/
def parseM : Nat → PMode → List PTok → Option (Option Bool × List PTok)
  | 0, _, _ => none
  | fuel + 1, m, ts =>
    match m with
    | .orM =>
      match parseM fuel .andM ts with
      | none => none
      | some (v1, ts1) =>
        match ts1 with
        | .orK :: ts2 =>
          match parseM fuel .orM ts2 with
          | none => none
          | some (v2, ts3) => some (orV v1 v2, ts3)
        | _ => some (v1, ts1)
    | .andM =>
      match parseM fuel .notM ts with
      | none => none
      | some (v1, ts1) =>
        match ts1 with
        | .andK :: ts2 =>
          match parseM fuel .andM ts2 with
          | none => none
          | some (v2, ts3) => some (andV v1 v2, ts3)
        | _ => some (v1, ts1)
    | .notM =>
      match ts with
      | .notK :: ts2 =>
        match parseM fuel .notM ts2 with
        | none => none
        | some (v, r) => some (v.map (fun b => !b), r)
      | _ => parseM fuel .cmpStartM ts
    | .cmpStartM =>
      match parseM fuel .atomM ts with
      | none => none
      | some (v0, ts1) =>
        match ts1 with
        | .eq :: _ => parseM fuel (.cmpRestM (cmpInit v0)) ts1
        | .ne :: _ => parseM fuel (.cmpRestM (cmpInit v0)) ts1
        | _ => some (v0, ts1)
    | .cmpRestM st =>
      match ts with
      | .eq :: ts2 =>
        match parseM fuel .atomM ts2 with
        | none => none
        | some (vb, ts3) =>
          match ts3 with
          | .eq :: _ => parseM fuel (.cmpRestM (cmpStep st true vb)) ts3
          | .ne :: _ => parseM fuel (.cmpRestM (cmpStep st true vb)) ts3
          | _ => some (cmpFinish (cmpStep st true vb), ts3)
      | .ne :: ts2 =>
        match parseM fuel .atomM ts2 with
        | none => none
        | some (vb, ts3) =>
          match ts3 with
          | .eq :: _ => parseM fuel (.cmpRestM (cmpStep st false vb)) ts3
          | .ne :: _ => parseM fuel (.cmpRestM (cmpStep st false vb)) ts3
          | _ => some (cmpFinish (cmpStep st false vb), ts3)
      | _ => some (cmpFinish st, ts)
    | .atomM =>
      match ts with
      | .tru :: r => some (some true, r)
      | .fls :: r => some (some false, r)
      | .idn :: r => some (none, r)
      | .lp :: r =>
        match parseM fuel .orM r with
        | some (v, .rp :: r2) => some (v, r2)
        | _ => none
      | _ => none

/-- The `eval(eval_formula)` call: tokenize, parse the whole token list as
one expression, evaluate.  `none` is any raised exception (`SyntaxError`,
`NameError`), which the source's bare `except` turns into `False`. -/
def pyEval (s : List Char) : Option Bool :=
  match tokF s.length s with
  | none => none
  | some [] => none
  | some ts =>
    match parseM (5 * ts.length + 10) .orM ts with
    | some (v, []) => v
    | _ => none

/-- The substitution-and-eval core of `SearchWorker._evaluate_formula`
for a non-empty formula; `none` is the exception caught by the bare
`except`. -/
def evalRaw (formula : String) (phrases : PhraseMap) (content : String) : Option Bool :=
  pyEval (opSubst (substLetters (flag phrases content)
    (upperChars (normalizeOperators formula.data))))

/-- `SearchWorker._evaluate_formula`: empty (after strip) formulas are
`False`; otherwise substitute and evaluate, with every evaluation failure
coerced to `False`. -/
def evalFormula (formula : String) (phrases : PhraseMap) (content : String) : Bool :=
  if pyStrip formula.data = [] then false
  else (evalRaw formula phrases content).getD false

/-- C8: `Evaluate("A", phrases, content)` returns exactly A's presence
flag.  When the flag is true the substituted string is `"True"`; when it
is false it is `"False"` mangled by the later `F` substitution into
`"Truealse"`/`"Falsealse"`, an undefined name whose `NameError` the bare
`except` coerces to `False` — the same value the flag has.  The proof
case-splits on all six letter flags and computes. -/
theorem c8_single_letter_formula_presence_flag (p : PhraseMap) (c : String) :
    evalFormula "A" p c = flag p c 'A' := by
  simp only [evalFormula, evalRaw, substLetters]
  cases h1 : flag p c 'A' <;> cases h2 : flag p c 'B' <;> cases h3 : flag p c 'C' <;>
    cases h4 : flag p c 'D' <;> cases h5 : flag p c 'E' <;> cases h6 : flag p c 'F' <;>
    decide

/-- Phrase map for the C1 failing input: A and B both present in the
content `"xy"`. -/
def c1Phrases : PhraseMap := [('A', ⟨"x", true⟩), ('B', ⟨"y", true⟩)]

/-- C1 (failing input): with A and B both present, the claim demands
`Evaluate("A AND B") = true`, but the letter substitution destroys the
word `AND` (its `A` and `D` are replaced by flag strings), the substituted
expression `"True TrueNFalsealse True"` is a syntax error, and the bare
`except` returns `False`. -/
theorem c1_and_formula_evaluates_false :
    evalFormula "A AND B" c1Phrases "xy" = false ∧
      flag c1Phrases "xy" 'A' = true ∧ flag c1Phrases "xy" 'B' = true := by
  decide

/-- Phrase map for the C2 counterexample: only A is set. -/
def c2Phrases : PhraseMap := [('A', ⟨"x", true⟩)]

/-- C2 (counterexample): the malformed formula `"A AND"` (which bypassed
validation) makes the internal evaluation fail (`evalRaw = none`), yet
`Evaluate` returns plain `false` — bitwise identical to the legitimate
false result of `"NOT A"` with A present (`evalRaw = some false`).  The
failure is silently coerced, not reported distinguishably. -/
theorem c2_failure_coerced_to_false :
    evalRaw "A AND" c2Phrases "xy" = none ∧
      evalFormula "A AND" c2Phrases "xy" = false ∧
      evalRaw "NOT A" c2Phrases "xy" = some false ∧
      evalFormula "NOT A" c2Phrases "xy" = false := by
  decide

/-- C2 (amended): whenever the internal boolean-expression evaluation
fails, `Evaluate` silently returns `false` (a non-match), with no
caller-visible error value. -/
theorem c2_amended_silent_coercion (f : String) (p : PhraseMap) (c : String)
    (h : evalRaw f p c = none) : evalFormula f p c = false := by
  simp [evalFormula, h]

/-- Witness for the C2 amended theorem at the concrete malformed input. -/
theorem c2_amended_silent_coercion_witness :
    evalFormula "A AND" c2Phrases "xy" = false :=
  c2_amended_silent_coercion "A AND" c2Phrases "xy" (by decide)

/-- C10: `Evaluate` is total — an empty/whitespace-only formula returns
`false`, and any failure of the internal evaluation is caught and yields
`false` rather than propagating. -/
theorem c10_evaluate_total (f : String) (p : PhraseMap) (c : String) :
    (pyStrip f.data = [] → evalFormula f p c = false) ∧
      (evalRaw f p c = none → evalFormula f p c = false) := by
  constructor
  · intro h
    simp [evalFormula, h]
  · intro h
    simp [evalFormula, h]

/-- Witness for C10 at a whitespace-only formula and at a formula whose
internal evaluation fails. -/
theorem c10_evaluate_total_witness :
    evalFormula "   " [] "x" = false ∧ evalFormula "A AND" [] "xy" = false :=
  ⟨(c10_evaluate_total "   " [] "x").1 (by decide),
    (c10_evaluate_total "A AND" [] "xy").2 (by decide)⟩

/-- Closing bracket of an opener (`pairs` in the source). -/
def closeOf (o : Char) : Char :=
  if o = '(' then ')' else if o = '[' then ']' else '}'

/-- Stack-based bracket scan of `_check_balanced_parentheses_detailed`:
positional errors (1-based) for unmatched closers and kind-mismatches in
scan order, then one error per leftover opener in insertion order. -/
def parenScan : List Char → Nat → List (Char × Nat) → List String
  | [], _, stack =>
    stack.reverse.map (fun oc =>
      "Unclosed '" ++ oc.1.toString ++ "' at position " ++ toString (oc.2 + 1))
  | c :: cs, i, stack =>
    if c = '(' ∨ c = '[' ∨ c = '{' then
      parenScan cs (i + 1) ((c, i) :: stack)
    else if c = ')' ∨ c = ']' ∨ c = '}' then
      match stack with
      | [] =>
        ("Unmatched closing '" ++ c.toString ++ "' at position " ++ toString (i + 1)) ::
          parenScan cs (i + 1) []
      | (o, p) :: rest =>
        if closeOf o = c then parenScan cs (i + 1) rest
        else
          ("Mismatched parentheses: '" ++ o.toString ++ "' at position " ++
              toString (p + 1) ++ " closed by '" ++ c.toString ++ "' at position " ++
              toString (i + 1)) ::
            parenScan cs (i + 1) rest
    else parenScan cs (i + 1) stack

/-- Bracket-balance errors of a formula. -/
def parenErrors (f : String) : List String := parenScan f.data 0 []

/-- Ordered-alternative regex scan (`re.findall` with an alternation):
at each position the first alternative that matches is taken, otherwise
the character is skipped.  Fuel is instantiated with the input length. -/
def scanTokens (alts : List (List Char)) : Nat → List Char → List (List Char)
  | 0, _ => []
  | _ + 1, [] => []
  | fuel + 1, c :: cs =>
    match alts.find? (fun p => !p.isEmpty && isPre p (c :: cs)) with
    | some p => p :: scanTokens alts fuel (cs.drop (p.length - 1))
    | none => scanTokens alts fuel cs

/-- Run the scanner over a whole character list. -/
def findTokensIn (alts : List (List Char)) (s : List Char) : List (List Char) :=
  scanTokens alts s.length s

/-- Alternatives of the token-check regex
`[A-F]|AND|OR|NOT|NOR|XOR|XNOR|&&?|\|\|?|!|~|\^|[()[\]{}]` in alternation
order (the character class `[A-F]` precedes the operator keywords, and
`&&?`/`\|\|?` are greedy). -/
def tokenAlts : List (List Char) :=
  [['A'], ['B'], ['C'], ['D'], ['E'], ['F'],
    "AND".data, "OR".data, "NOT".data, "NOR".data, "XOR".data, "XNOR".data,
    "&&".data, ['&'], "||".data, ['|'], ['!'], ['~'], ['^'],
    ['('], [')'], ['['], [']'], ['{'], ['}']]

/-- Alternatives of the structure-check regex
`[A-F]|AND|OR|NOT|NOR|XOR|XNOR|[()[\]{}]` in alternation order. -/
def structAlts : List (List Char) :=
  [['A'], ['B'], ['C'], ['D'], ['E'], ['F'],
    "AND".data, "OR".data, "NOT".data, "NOR".data, "XOR".data, "XNOR".data,
    ['('], [')'], ['['], [']'], ['{'], ['}']]

/-- `clean_formula`: normalized, uppercased, spaces removed. -/
def cleanFormula (f : String) : List Char :=
  (upperChars (normalizeOperators f.data)).filter (fun c => c ≠ ' ')

/-- The valid-character set `set('ABCDEF()[]{}ANDORNOTXR&|!~^')`. -/
def validTokenChar (c : Char) : Bool :=
  ("ABCDEF()[]{}ANDORNOTXR&|!~^".data).contains c

/-- Insertion into an ascending character list. -/
def insertCh (c : Char) : List Char → List Char
  | [] => [c]
  | d :: ds => if c ≤ d then c :: d :: ds else d :: insertCh c ds

/-- Ascending sort of a character list (Python's `sorted`). -/
def sortChars (s : List Char) : List Char := s.foldr insertCh []

/-- The invalid-characters error of `_check_valid_tokens_detailed`: all
distinct offending characters reported together, sorted. -/
def charErrors (f : String) : List String :=
  let bad := sortChars ((cleanFormula f).filter (fun c => !(validTokenChar c))).dedup
  if bad = [] then []
  else
    ["Invalid characters found: " ++ String.intercalate ", " (bad.map Char.toString)]

/-- The six single-letter variable tokens. -/
def letterToks : List (List Char) :=
  [['A'], ['B'], ['C'], ['D'], ['E'], ['F']]

/-- The five binary-operator tokens. -/
def binToks : List (List Char) :=
  ["AND".data, "OR".data, "NOR".data, "XOR".data, "XNOR".data]

/-- Adjacent-token errors of `_check_valid_tokens_detailed`: two variables
in a row, and two binary operators in a row. -/
def seqErrors : List (List Char) → List String
  | [] => []
  | [_] => []
  | t1 :: t2 :: rest =>
    (if t1 ∈ letterToks ∧ t2 ∈ letterToks then
      ["Invalid sequence: '" ++ String.mk t1 ++ " " ++ String.mk t2 ++
        "' - missing operator between variables"]
    else []) ++
    (if t1 ∈ binToks ∧ t2 ∈ binToks then
      ["Invalid sequence: '" ++ String.mk t1 ++ " " ++ String.mk t2 ++
        "' - consecutive operators"]
    else []) ++
    seqErrors (t2 :: rest)

/-- `_check_valid_tokens_detailed`: character-set error, then either the
no-tokens error (with an early return) or the adjacent-token errors. -/
def tokenErrors (f : String) : List String :=
  charErrors f ++
    (let toks := findTokensIn tokenAlts (cleanFormula f)
     if toks = [] then ["No valid tokens found in formula"] else seqErrors toks)

/-- Tokens used by `_check_logical_structure` (normalized, uppercased,
spaces left in place and skipped by the scan). -/
def structTokens (f : String) : List (List Char) :=
  findTokensIn structAlts (upperChars (normalizeOperators f.data))

/-- Error message: binary operator first in the formula. -/
def msgOpStart (op : String) : String :=
  "'" ++ op ++ "' operator at start of formula needs left operand"

/-- Error message: binary operator last in the formula. -/
def msgOpEnd (op : String) : String :=
  "'" ++ op ++ "' operator at end of formula needs right operand"

/-- Error message: binary operator preceded by an operator. -/
def msgOpLeft (op : String) : String :=
  "'" ++ op ++ "' operator missing valid left operand"

/-- Error message: binary operator followed by a binary operator. -/
def msgOpRight (op : String) : String :=
  "'" ++ op ++ "' operator missing valid right operand"

/-- Error message: `NOT` last in the formula. -/
def msgNotEnd : String := "'NOT' operator at end of formula needs operand"

/-- Error message: `NOT` followed by a binary operator. -/
def msgNotOperand : String := "'NOT' operator missing valid operand"

/-- The errors `_check_logical_structure` emits for the token at index
`i`, in source order (left-operand error before right-operand error). -/
def structErrAt (toks : List (List Char)) (i : Nat) (t : List Char) : List String :=
  if t ∈ binToks then
    if i = 0 then [msgOpStart (String.mk t)]
    else if i = toks.length - 1 then [msgOpEnd (String.mk t)]
    else
      (if toks.getD (i - 1) [] ∈ binToks ∨ toks.getD (i - 1) [] = "NOT".data then
        [msgOpLeft (String.mk t)]
      else []) ++
      (if toks.getD (i + 1) [] ∈ binToks then [msgOpRight (String.mk t)] else [])
  else if t = "NOT".data then
    if i = toks.length - 1 then [msgNotEnd]
    else if toks.getD (i + 1) [] ∈ binToks then [msgNotOperand] else []
  else []

/-- All structural-validity errors of `_check_logical_structure`. -/
def structureErrors (f : String) : List String :=
  (((structTokens f).enum).map
    (fun it => structErrAt (structTokens f) it.1 it.2)).flatten

/-- Empty-grouping error of `_check_impossible_conditions`. -/
def emptyGroupErrors (f : String) : List String :=
  if hasSub "()".data f.data || hasSub "[]".data f.data || hasSub "{}".data f.data then
    ["Empty parentheses/brackets found - they must contain expressions"]
  else []

/-- Contradiction / tautology warnings of `_check_paradoxes_detailed`,
by literal substring scan over the uppercased formula. -/
def paradoxWarnings (f : String) : List String :=
  ((['A', 'B', 'C', 'D', 'E', 'F'].filter (fun L =>
      hasSub ([L] ++ " AND NOT ".data ++ [L]) (upperChars f.data) ||
        hasSub ("NOT ".data ++ [L] ++ " AND ".data ++ [L]) (upperChars f.data))).map
    (fun L =>
      "Logical paradox detected: '" ++ L.toString ++ " AND NOT " ++ L.toString ++
        "' - this will always be false")) ++
  ((['A', 'B', 'C', 'D', 'E', 'F'].filter (fun L =>
      hasSub ([L] ++ " OR NOT ".data ++ [L]) (upperChars f.data) ||
        hasSub ("NOT ".data ++ [L] ++ " OR ".data ++ [L]) (upperChars f.data))).map
    (fun L =>
      "Tautology detected: '" ++ L.toString ++ " OR NOT " ++ L.toString ++
        "' - this will always be true"))

/-- Unset-variable warning of `_check_impossible_conditions`: letters used
in the formula whose phrase is missing or strips to empty.  The source
iterates a Python set here, whose order is unspecified; the model lists
the letters in alphabetical order. -/
def unsetWarnings (f : String) (phrases : PhraseMap) : List String :=
  let used := ['A', 'B', 'C', 'D', 'E', 'F'].filter (fun L => L ∈ upperChars f.data)
  let emptyVars := used.filter (fun L =>
    match List.lookup L phrases with
    | some ph => decide (pyStrip ph.text.data = [])
    | none => false)
  if emptyVars = [] then []
  else
    ["Variables " ++ String.intercalate ", " (emptyVars.map Char.toString) ++
      " are used in formula but have no corresponding phrases"]

/-- Outcome of `_comprehensive_formula_validation`. -/
structure ValidationResult where
  isValid : Bool
  errors : List String
  warnings : List String

/-- `_comprehensive_formula_validation`: merge the four checks in source
order; valid iff the merged error list is empty. -/
def validate (f : String) (phrases : PhraseMap) : ValidationResult :=
  { isValid := (parenErrors f ++ tokenErrors f ++ structureErrors f ++
      emptyGroupErrors f).isEmpty,
    errors := parenErrors f ++ tokenErrors f ++ structureErrors f ++
      emptyGroupErrors f,
    warnings := paradoxWarnings f ++ unsetWarnings f phrases }

/-- C5 (counterexample): `"AND A"` is bracket-balanced and contains only
valid characters, yet `Validate` rejects it — the token scan (in which the
class `[A-F]` precedes the keyword alternatives, so `AND` is scanned as
`A`, `D`) yields adjacent variable tokens and the adjacent-token check
raises errors. -/
theorem c5_balanced_valid_chars_not_sufficient :
    parenErrors "AND A" = [] ∧ charErrors "AND A" = [] ∧
      (validate "AND A" []).isValid = false := by
  decide

/-- C5 (amended): balance and character validity are necessary but not
sufficient; `Validate` returns `is_valid = true` exactly when all four
error-producing checks are silent. -/
theorem c5_amended_validity_iff_all_checks (f : String) (p : PhraseMap) :
    (validate f p).isValid = true ↔
      (parenErrors f = [] ∧ tokenErrors f = [] ∧ structureErrors f = [] ∧
        emptyGroupErrors f = []) := by
  simp [validate, List.append_eq_nil, and_assoc]

/-- A structure error message carries no numeral at all. -/
def digitFree (s : String) : Bool := s.data.all (fun ch => !ch.isDigit)

/-- The operator names a structure error can mention. -/
def opNames : List String := ["AND", "OR", "NOR", "XOR", "XNOR", "NOT"]

/-- A message names an offending operator: it starts with
`'<op>' operator` for one of the six operator names. -/
def namesSomeOp (m : String) : Bool :=
  opNames.any (fun op => isPre ("'" ++ op ++ "' operator").data m.data)

theorem structErrAt_mem {toks : List (List Char)} {i : Nat} {t : List Char}
    {m : String} (hm : m ∈ structErrAt toks i t) :
    (t ∈ binToks ∧ (m = msgOpStart (String.mk t) ∨ m = msgOpEnd (String.mk t) ∨
      m = msgOpLeft (String.mk t) ∨ m = msgOpRight (String.mk t))) ∨
      m = msgNotEnd ∨ m = msgNotOperand := by
  unfold structErrAt at hm
  split_ifs at hm <;> simp at hm <;> tauto

/-- C7 (counterexample): the formula `"A OR OR OR B"` has four structural
violations (at token indices 1, 2, 2, 3) but they produce only two
distinct messages, repeated, and no message contains any numeral — the
messages name the operator but give no token index. -/
theorem c7_structure_errors_lack_token_index :
    structureErrors "A OR OR OR B" =
      [msgOpRight "OR", msgOpLeft "OR", msgOpRight "OR", msgOpLeft "OR"] ∧
      digitFree (msgOpRight "OR") = true ∧ digitFree (msgOpLeft "OR") = true := by
  decide

/-- C7 (amended): every structural-validity error message names the
offending operator (it starts with `'<op>' operator`), but carries no
token index — it contains no digit at all. -/
theorem c7_amended_errors_name_operator (f : String) (m : String)
    (hm : m ∈ structureErrors f) : namesSomeOp m = true ∧ digitFree m = true := by
  unfold structureErrors at hm
  rcases List.mem_flatten.mp hm with ⟨l, hl, hml⟩
  rcases List.mem_map.mp hl with ⟨⟨i, t⟩, hit, rfl⟩
  dsimp only at hml
  clear hm hl hit
  rcases structErrAt_mem hml with ⟨hb, hc⟩ | hc | hc
  · have hb' : t = "AND".data ∨ t = "OR".data ∨ t = "NOR".data ∨
        t = "XOR".data ∨ t = "XNOR".data := by simpa [binToks] using hb
    rcases hb' with rfl | rfl | rfl | rfl | rfl <;>
      rcases hc with rfl | rfl | rfl | rfl <;> decide
  · rw [hc]; decide
  · rw [hc]; decide

/-- Witness for the C7 amended theorem at a concrete violating formula
and one of its emitted messages. -/
theorem c7_amended_errors_name_operator_witness :
    namesSomeOp (msgOpRight "OR") = true ∧ digitFree (msgOpRight "OR") = true :=
  c7_amended_errors_name_operator "A OR OR B" (msgOpRight "OR") (by decide)

/-- The line-mode loop of `SearchWorker._search_file`: evaluate the
formula per line; a match's key is `file_path ++ ":" ++ stripped_line`;
`is_first_occurrence` is true iff the key is not yet in the run's seen
set (`self.unique_matches`, threaded here as `seen`); in unique mode a
repeated match is not emitted.  Each emitted triple is
(stripped content, line number, is_first_occurrence). -/
def searchLines (p : PhraseMap) (formula : String) (uniq : Bool) (fp : String) :
    List String → Nat → List String → List (String × Nat × Bool)
  | [], _, _ => []
  | l :: ls, n, seen =>
    if evalFormula formula p l then
      let key := fp ++ ":" ++ pyStripS l
      if key ∈ seen then
        if uniq then searchLines p formula uniq fp ls (n + 1) seen
        else (pyStripS l, n, false) :: searchLines p formula uniq fp ls (n + 1) seen
      else
        (pyStripS l, n, true) :: searchLines p formula uniq fp ls (n + 1) (key :: seen)
    else searchLines p formula uniq fp ls (n + 1) seen

/-- Phrase map for the C6 counterexample. -/
def c6Phrases : PhraseMap := [('A', ⟨"cat", false⟩)]

/-- C6 (counterexample): two matching lines that both contain the phrase
but differ in stripped content are each a first occurrence — the second
emitted match has `is_first_occurrence = true`, not `false` as the claim
states for any two matching lines. -/
theorem c6_different_content_both_first :
    searchLines c6Phrases "A" false "f" ["cat", "dog cat"] 1 [] =
      [("cat", 1, true), ("dog cat", 2, true)] := by
  decide

/-- C6 (amended): for two matching lines with equal stripped content
(the claim's own key), the first emitted match is flagged as first
occurrence and the second is not, and in unique mode only the first is
emitted. -/
theorem c6_amended_equal_content_first_occurrence (p : PhraseMap)
    (fp l1 l2 : String) (h1 : evalFormula "A" p l1 = true)
    (h2 : evalFormula "A" p l2 = true) (he : pyStripS l1 = pyStripS l2) :
    searchLines p "A" false fp [l1, l2] 1 [] =
      [(pyStripS l1, 1, true), (pyStripS l2, 2, false)] ∧
      searchLines p "A" true fp [l1, l2] 1 [] = [(pyStripS l1, 1, true)] := by
  constructor <;>
    simp [searchLines, h1, h2, ← he]

/-- Witness for the C6 amended theorem: two lines with equal stripped
content that both contain phrase A. -/
theorem c6_amended_equal_content_first_occurrence_witness :
    searchLines c6Phrases "A" false "f" ["cat", " cat "] 1 [] =
      [(pyStripS "cat", 1, true), (pyStripS " cat ", 2, false)] ∧
      searchLines c6Phrases "A" true "f" ["cat", " cat "] 1 [] =
        [(pyStripS "cat", 1, true)] :=
  c6_amended_equal_content_first_occurrence c6Phrases "f" "cat" " cat "
    (by decide) (by decide) (by decide)

/-- One emitted search hit, as passed to `result_found`:
(content, line number, is_first_occurrence). -/
abbrev MatchE := String × Nat × Bool

/-- The inner emission loop of `run_search` over one file's matches:
`is_cancelled` is read (time index `t`) before each emission; reading
true breaks the loop.  Each emitted match is paired with the time index
of the flag read that let it through. -/
def emitList (fl : Nat → Bool) (t : Nat) : List MatchE → List (MatchE × Nat)
  | [] => []
  | m :: ms => if fl t then [] else (m, t) :: emitList fl (t + 1) ms

/-- The time index after the emission loop (number of flag reads). -/
def emitClock (fl : Nat → Bool) (t : Nat) : List MatchE → Nat
  | [] => t
  | _ :: ms => if fl t then t + 1 else emitClock fl (t + 1) ms

/-- The outer file loop of `run_search`: `is_cancelled` is read before
each file; reading true breaks the loop (a break of the inner loop only
returns to the outer check). -/
def filesList (fl : Nat → Bool) (t : Nat) : List (List MatchE) → List (MatchE × Nat)
  | [] => []
  | f :: fs =>
    if fl t then []
    else emitList fl (t + 1) f ++ filesList fl (emitClock fl (t + 1) f) fs

/-- `SearchWorker.run_search` over the per-file match lists: the emitted
results (each with the time index of its guarding flag read) and the
terminal `search_finished` message.  The terminal message of a non-empty
run is always the "Search complete" message — `match_count` is the number
of emitted matches — whether or not the run was cancelled. -/
def runSearch (fl : Nat → Bool) (files : List (List MatchE)) :
    List (MatchE × Nat) × String :=
  if files = [] then ([], "No files found matching the criteria.")
  else
    (filesList fl 0 files,
      "Search complete. Found " ++ toString (filesList fl 0 files).length ++
        " matches in " ++ toString files.length ++ " files.")

/-- The cancellation schedule of the C4 counterexample: the flag becomes
true from the third read on (after the first file's match is emitted). -/
def c4Flag (t : Nat) : Bool := decide (2 ≤ t)

/-- The three one-match files of the C4 counterexample. -/
def c4Files : List (List MatchE) :=
  [[("cat", 1, true)], [("dog", 1, true)], [("owl", 1, true)]]

/-- C4 (counterexample): cancelling after the first of three files stops
further emission, but the terminal status still reads "Search complete.
..." — the run does not report a cancelled status. -/
theorem c4_cancelled_run_reports_complete :
    runSearch c4Flag c4Files =
      ([(("cat", 1, true), 1)], "Search complete. Found 1 matches in 3 files.") ∧
      c4Flag 2 = true := by
  decide

theorem emitList_mem {fl : Nat → Bool} {m : MatchE} {t : Nat} :
    ∀ (t0 : Nat) (ms : List MatchE), (m, t) ∈ emitList fl t0 ms → fl t = false := by
  intro t0 ms
  induction ms generalizing t0 with
  | nil => intro h; simp [emitList] at h
  | cons x xs ih =>
    intro h
    rw [emitList] at h
    by_cases hf : fl t0 = true
    · rw [if_pos hf] at h
      simp at h
    · rw [if_neg hf] at h
      rcases List.mem_cons.mp h with h1 | h1
      · have : t = t0 := congrArg Prod.snd h1
        rw [this]
        exact Bool.eq_false_iff.mpr hf
      · exact ih _ h1

theorem filesList_mem {fl : Nat → Bool} {m : MatchE} {t : Nat} :
    ∀ (t0 : Nat) (files : List (List MatchE)),
      (m, t) ∈ filesList fl t0 files → fl t = false := by
  intro t0 files
  induction files generalizing t0 with
  | nil => intro h; simp [filesList] at h
  | cons f fs ih =>
    intro h
    rw [filesList] at h
    by_cases hf : fl t0 = true
    · rw [if_pos hf] at h
      simp at h
    · rw [if_neg hf] at h
      rcases List.mem_append.mp h with h1 | h1
      · exact emitList_mem _ _ h1
      · exact ih _ h1

/-- C4 (amended): every emitted match was let through by a flag read that
returned false — once the flag is set no further match is emitted — but
the terminal message of a non-empty run always reports
"Search complete. ..." (never a cancelled status). -/
theorem c4_amended_no_emission_after_cancel (fl : Nat → Bool)
    (files : List (List MatchE)) :
    (∀ m t, (m, t) ∈ (runSearch fl files).1 → fl t = false) ∧
      (files ≠ [] → (runSearch fl files).2 =
        "Search complete. Found " ++ toString (runSearch fl files).1.length ++
          " matches in " ++ toString files.length ++ " files.") := by
  constructor
  · intro m t hm
    rw [runSearch] at hm
    by_cases hf : files = []
    · rw [if_pos hf] at hm
      simp at hm
    · rw [if_neg hf] at hm
      exact filesList_mem 0 files hm
  · intro hf
    simp only [runSearch, if_neg hf]

/-- Witness for the C4 amended theorem at the concrete cancelled run. -/
theorem c4_amended_no_emission_after_cancel_witness :
    c4Flag 1 = false ∧
      (runSearch c4Flag c4Files).2 =
        "Search complete. Found " ++ toString (runSearch c4Flag c4Files).1.length ++
          " matches in " ++ toString c4Files.length ++ " files." :=
  ⟨(c4_amended_no_emission_after_cancel c4Flag c4Files).1 ("cat", 1, true) 1 (by decide),
    (c4_amended_no_emission_after_cancel c4Flag c4Files).2 (by decide)⟩
